import Mathlib

/-!
# Second Brain — knowledge-retrieval core: shallow embedding and verification

This file embeds, in Lean 4, the knowledge-retrieval core of the
`second-brain` meeting assistant (Rust backend `knowledge_base.rs` /
`llm_agent.rs`, as recorded in the repository's implementation log) and
proves the spec's claims about it.

Modelling conventions:
* Rust `String` is Lean `String`; `starts_with` / `strip_prefix` are
  modelled char-wise via the string's character list.
* Timestamps (Unix ms) are `Int`; segment times are `Nat` (ms).
* Store tables are Lean lists; SurrealDB `SELECT ... WHERE` is `List.filter`,
  record lookup by id is `List.find?`, `GROUP BY x` (deduplication) is
  `List.dedup`.
* Fallible external collaborators (embedding, entity extraction) and
  fallible store calls are `Except String`-valued function parameters.
* Cosine-similarity scores are abstracted as an `Int`-valued scoring
  function supplied by the (external) embedding collaborator; none of the
  verified properties depend on the numeric values.
-/

namespace SecondBrain

/-- The SurrealDB table tag that prefixes a fully-qualified record id,
`knowledge_source:<id>` (the Rust code's `"knowledge_source:"` literal). -/
def ksTag : String := "knowledge_source:"

/-- `normalize_source_id` mirrors `get_knowledge_source`'s id normalization
(`knowledge_base.rs`): if the argument starts with `"knowledge_source:"`
strip that tag once, else return it unchanged.  Char-wise model of Rust's
`starts_with` / `strip_prefix`. -/
def normalize_source_id (source_id : String) : String :=
  if ksTag.data.isPrefixOf source_id.data then
    String.mk (source_id.data.drop ksTag.data.length)
  else
    source_id

/-- KnowledgeSource row (`knowledge_base.rs` struct), with the bare record
id made explicit. -/
structure KnowledgeSource where
  id : String
  url : String
  title : String
  source_type : String
  tags : List String
  deriving DecidableEq, Repr

/-- KnowledgeChunk row: `source_id`, text, chunk index.  The stored
embedding vector is irrelevant to every verified property and is omitted;
similarity scoring is abstracted (see `search_knowledge`). -/
structure KnowledgeChunk where
  source_id : String
  text : String
  chunk_index : Int
  deriving DecidableEq, Repr

/-- The knowledge-base portion of the store: the `knowledge_source` and
`knowledge_chunk` tables. -/
structure KBStore where
  sources : List KnowledgeSource
  chunks : List KnowledgeChunk
  deriving DecidableEq, Repr

/-- `get_knowledge_source` (`knowledge_base.rs`): normalize the id (strip a
leading `"knowledge_source:"` once) and select the source record with that
bare id. -/
def get_knowledge_source (source_id : String) (st : KBStore) :
    Option KnowledgeSource :=
  st.sources.find? (fun s => s.id == normalize_source_id source_id)

/-- `cleanup_orphaned_chunks` (`knowledge_base.rs`): enumerate the distinct
`source_id` values referenced by chunks (`SELECT source_id FROM
knowledge_chunk GROUP BY source_id`); for each, if `get_knowledge_source`
finds no source, delete every chunk whose `source_id` equals that exact
value and bump the counter by one.  Returns the final store and the
counter.  `cleanup_step` is one iteration of that loop. -/
def cleanup_step (acc : KBStore × Nat) (sid : String) : KBStore × Nat :=
  if (get_knowledge_source sid acc.1).isNone then
    ({ acc.1 with chunks := acc.1.chunks.filter (fun c => ! (c.source_id == sid)) },
      acc.2 + 1)
  else
    acc

/-- The loop of `cleanup_orphaned_chunks`, folding `cleanup_step` over the
distinct source ids. -/
def cleanup_orphaned_chunks (st : KBStore) : KBStore × Nat :=
  let sids := (st.chunks.map (·.source_id)).dedup
  sids.foldl cleanup_step (st, 0)

/-- One `search_knowledge` result (`knowledge_base.rs` struct
`KnowledgeSearchResult`): the chunk, its resolved source title/url, and the
similarity score. -/
structure KnowledgeSearchResult where
  chunk : KnowledgeChunk
  source_title : String
  source_url : String
  similarity : Int
  deriving DecidableEq, Repr

/-- Per-hit source resolution in `search_knowledge` (`knowledge_base.rs`):
`Ok(Some(source))` gives the source's title and url; `Ok(None)` (source
missing) and `Err(_)` (lookup failure) both fall back to the label
`"Source {id}"` with an empty url. -/
def resolve_source_meta (resolve : String → Except String (Option KnowledgeSource))
    (source_id : String) : String × String :=
  match resolve source_id with
  | Except.ok (some source) => (source.title, source.url)
  | Except.ok none => ("Source " ++ source_id, "")
  | Except.error _ => ("Source " ++ source_id, "")

/-- The store-backed resolver: `self.get_knowledge_source`, which cannot
fail in the pure model. -/
def kb_resolver (st : KBStore) : String → Except String (Option KnowledgeSource) :=
  fun source_id => Except.ok (get_knowledge_source source_id st)

/-- `search_knowledge(query, limit, tags)` (`knowledge_base.rs`): filter
chunks by source tags when a tag list is given (`WHERE source_id IN (SELECT
id FROM knowledge_source WHERE tags CONTAINSANY $tags)`), rank by
similarity descending (`ORDER BY similarity DESC LIMIT $limit`), and map
each kept chunk to a result with its source resolved per-hit.  `score`
abstracts `vector::similarity::cosine(embedding, $query_embedding)`;
`resolve` is the per-hit source lookup (`kb_resolver st` in the program). -/
def search_knowledge (score : KnowledgeChunk → Int)
    (resolve : String → Except String (Option KnowledgeSource))
    (st : KBStore) (limit : Nat) (tags : Option (List String)) :
    List KnowledgeSearchResult :=
  let pool :=
    match tags with
    | none => st.chunks
    | some ts =>
        st.chunks.filter (fun (c : KnowledgeChunk) =>
          (st.sources.filter (fun (s : KnowledgeSource) =>
              s.tags.any (fun t => ts.contains t))).any
            (fun s => s.id == c.source_id))
  let ranked := (pool.insertionSort (fun a b => score b ≤ score a)).take limit
  ranked.map (fun c =>
    let meta := resolve_source_meta resolve c.source_id
    { chunk := c, source_title := meta.1, source_url := meta.2,
      similarity := score c })

/-- Milliseconds in one day. -/
def dayMs : Int := 86400000

/-- Milliseconds in half a day (12 hours). -/
def halfDayMs : Int := 43200000

/-- Milliseconds in 3.5 days (half a week). -/
def halfWeekMs : Int := 302400000

/-- Split a lower-cased character list into space-separated words
(accumulator holds the current word reversed). -/
def split_on_space (acc : List Char) : List Char → List (List Char)
  | [] => [acc.reverse]
  | c :: cs =>
      if c = ' ' then acc.reverse :: split_on_space [] cs
      else split_on_space (c :: acc) cs

/-- Lower-case a text and split it into its space-separated words. -/
def words_of (text : String) : List String :=
  (split_on_space [] (text.data.map Char.toLower)).map String.mk

/-- Accumulate the decimal value of a digit character list. -/
def nat_of_chars_aux (acc : Nat) : List Char → Option Nat
  | [] => some acc
  | c :: cs =>
      if c.isDigit then nat_of_chars_aux (acc * 10 + (c.toNat - 48)) cs
      else none

/-- Parse a word as a decimal natural number (`none` on the empty word or
any non-digit character). -/
def word_to_nat? (w : String) : Option Nat :=
  if w.data.isEmpty then none else nat_of_chars_aux 0 w.data

/-- Scan a word list for the phrase `"<n> <unit> ago"` (a digit token
followed by the unit word followed by `"ago"`), returning the first such
`n`.  Modelled from the spec: the temporal parser's regex for the phrase
patterns `"N weeks ago"` / `"N days ago"` (the Rust body is not in the
repository snapshot; only its rule table is). -/
def scan_n_unit (unit : String) : List String → Option Nat
  | a :: b :: c :: rest =>
      match word_to_nat? a with
      | some n =>
          if b == unit && c == "ago" then some n
          else scan_n_unit unit (b :: c :: rest)
      | none => scan_n_unit unit (b :: c :: rest)
  | _ => none

/-- Scan a word list for two given adjacent words (`"last week"`,
`"last month"`).  Modelled from the spec's phrase table. -/
def has_seq2 (w1 w2 : String) : List String → Bool
  | a :: b :: rest => (a == w1 && b == w2) || has_seq2 w1 w2 (b :: rest)
  | _ => false

/-- Modelled from the spec: the Temporal Parser
`parse(text, now) -> Option<[start, end)>` (§4.3; the Rust
`parse_temporal` body is absent from the snapshot, which records only its
rule table).  Rules applied in priority order, first match wins:
`"N weeks ago"` → window centered at `now − 7N` days, half-width 3.5 days;
`"N days ago"` → centered at `now − N` days, half-width 12 hours;
`"last week"` → `[now−14d, now−7d)`; `"last month"` → `[now−30d, now)`;
`"yesterday"` → `[now−2d, now−1d)`; otherwise no window. -/
def parse_temporal (text : String) (now : Int) : Option (Int × Int) :=
  let words := words_of text
  match scan_n_unit "weeks" words with
  | some n =>
      some (now - 7 * n * dayMs - halfWeekMs, now - 7 * n * dayMs + halfWeekMs)
  | none =>
      match scan_n_unit "days" words with
      | some n =>
          some (now - n * dayMs - halfDayMs, now - n * dayMs + halfDayMs)
      | none =>
          if has_seq2 "last" "week" words then
            some (now - 14 * dayMs, now - 7 * dayMs)
          else if has_seq2 "last" "month" words then
            some (now - 30 * dayMs, now)
          else if words.contains "yesterday" then
            some (now - 2 * dayMs, now - 1 * dayMs)
          else
            none

/-- Meeting row: only the fields the verified claims touch (id, title,
start time in Unix ms). -/
structure Meeting where
  id : String
  title : String
  start_time : Int
  deriving DecidableEq, Repr

/-- Transcript segment row: meeting id, speaker label, text, start/end
milliseconds.  (The stored embedding is irrelevant here and omitted.) -/
structure Segment where
  meeting_id : String
  speaker : String
  text : String
  start_ms : Nat
  end_ms : Nat
  deriving DecidableEq, Repr

/-- ActionItem row. -/
structure ActionItem where
  meeting_id : String
  text : String
  status : String
  assignee : String
  deriving DecidableEq, Repr

/-- Decision row. -/
structure Decision where
  meeting_id : String
  text : String
  created_at : Int
  deriving DecidableEq, Repr

/-- Person node. -/
structure Person where
  name : String
  last_seen : Int
  deriving DecidableEq, Repr

/-- Topic node. -/
structure Topic where
  name : String
  mention_count : Nat
  last_mentioned : Int
  deriving DecidableEq, Repr

/-- EntityRelation row: provenance is a meeting id or a knowledge-source
id (`option<string>` fields in the schema). -/
structure EntityRelation where
  source_entity : String
  source_type : String
  relation : String
  target_entity : String
  target_type : String
  meeting_id : Option String
  knowledge_source_id : Option String
  deriving DecidableEq, Repr

/-- A graph edge (`mentioned_in` / `discussed_in`) attached to a meeting. -/
structure GraphEdge where
  kind : String
  meeting_id : String
  deriving DecidableEq, Repr

/-- A meeting → knowledge-source link row (`meeting_knowledge`). -/
structure MeetingKnowledgeLink where
  meeting_id : String
  source_id : String
  deriving DecidableEq, Repr

/-- The whole store: meeting-side tables plus the knowledge base. -/
structure Store where
  meetings : List Meeting
  segments : List Segment
  action_items : List ActionItem
  decisions : List Decision
  people : List Person
  topics : List Topic
  entity_relations : List EntityRelation
  graph_edges : List GraphEdge
  meeting_knowledge : List MeetingKnowledgeLink
  kb : KBStore
  deriving DecidableEq, Repr

/-- `get_meeting`: select the meeting row by id. -/
def get_meeting (meeting_id : String) (st : Store) : Option Meeting :=
  st.meetings.find? (fun m => m.id == meeting_id)

/-- `get_meeting_segments`: segments scoped strictly by `meeting_id`. -/
def get_meeting_segments (meeting_id : String) (st : Store) : List Segment :=
  st.segments.filter (fun s => s.meeting_id == meeting_id)

/-- `get_meeting_action_items`: action items scoped by `meeting_id`. -/
def get_meeting_action_items (meeting_id : String) (st : Store) : List ActionItem :=
  st.action_items.filter (fun a => a.meeting_id == meeting_id)

/-- `get_meeting_decisions`: decisions scoped by `meeting_id`. -/
def get_meeting_decisions (meeting_id : String) (st : Store) : List Decision :=
  st.decisions.filter (fun d => d.meeting_id == meeting_id)

/-- Modelled from the spec: `delete_meeting(meeting_id)`
(`knowledge_base.rs`; the snapshot records only the per-table deletion
list, not the Rust body).  Deleting a nonexistent meeting is an explicit
error (§7: the missing id is the operation's primary target); otherwise
delete, by meeting id, the segments, action items, decisions, entity
relations, meeting-knowledge links and graph edges, and then the meeting
row. -/
def delete_meeting (meeting_id : String) (st : Store) : Except String Store :=
  if (get_meeting meeting_id st).isNone then
    Except.error ("Meeting not found: " ++ meeting_id)
  else
    Except.ok { st with
      segments := st.segments.filter (fun s => ! (s.meeting_id == meeting_id))
      action_items := st.action_items.filter (fun a => ! (a.meeting_id == meeting_id))
      decisions := st.decisions.filter (fun d => ! (d.meeting_id == meeting_id))
      entity_relations :=
        st.entity_relations.filter (fun r => ! (r.meeting_id == some meeting_id))
      meeting_knowledge :=
        st.meeting_knowledge.filter (fun l => ! (l.meeting_id == meeting_id))
      graph_edges := st.graph_edges.filter (fun e => ! (e.meeting_id == meeting_id))
      meetings := st.meetings.filter (fun m => ! (m.id == meeting_id)) }

/-- One diarization range handed in by the external collaborator:
`(start_ms, end_ms, speaker_id, speaker_label)`. -/
structure DiarizationRange where
  start_ms : Nat
  end_ms : Nat
  speaker_id : Int
  label : String
  deriving DecidableEq, Repr

/-- A segment's temporal midpoint in milliseconds. -/
def segment_midpoint (s : Segment) : Nat :=
  (s.start_ms + s.end_ms) / 2

/-- First diarization range containing a midpoint.  The end bound is
inclusive so that a midpoint exactly on the boundary between two adjacent
ranges resolves to the earlier range.  Modelled from the spec (§4.2; the
Rust `relabel_speakers` body is absent from the snapshot, which records
only its signature and behaviour). -/
def find_diarization_range (ranges : List DiarizationRange) (mid : Nat) :
    Option DiarizationRange :=
  ranges.find? (fun r => r.start_ms ≤ mid && mid ≤ r.end_ms)

/-- The generic speaker label that diarization relabelling targets
(the implementation log: "Finds 'Guest' segments in the meeting"). -/
def generic_speaker : String := "Guest"

/-- Modelled from the spec: per-segment step of `relabel_speakers` — a
generically-labeled segment whose midpoint falls in a range gets that
range's resolved label; every other segment is unchanged. -/
def relabel_segment (ranges : List DiarizationRange) (s : Segment) : Segment :=
  if s.speaker == generic_speaker then
    match find_diarization_range ranges (segment_midpoint s) with
    | some r => { s with speaker := r.label }
    | none => s
  else s

/-- Modelled from the spec: `relabel_speakers(meeting_id, ranges)`
(§4.2) — rewrite the speaker of every generically-labeled segment of the
given meeting whose midpoint falls inside a diarization range; segments of
other meetings are untouched.  Returns the updated segment table and the
number of segments relabeled. -/
def relabel_speakers (meeting_id : String) (ranges : List DiarizationRange)
    (st : Store) : Store × Nat :=
  let step := fun (s : Segment) =>
    if s.meeting_id == meeting_id then relabel_segment ranges s else s
  let relabeled := st.segments.map step
  let changed :=
    (st.segments.filter (fun s => ! (step s == s))).length
  ({ st with segments := relabeled }, changed)

/-- An entity recognized by the extraction collaborator: `(text, type)`. -/
structure ExtractedEntity where
  text : String
  label : String
  deriving DecidableEq, Repr

/-- A relationship produced by the extraction collaborator. -/
structure ExtractedRelation where
  source : String
  relation : String
  target : String
  deriving DecidableEq, Repr

/-- `extract_with_relations` (`entities.rs`): run the entity pass; when it
fails, that error propagates from this function (the caller contains it).
When zero entities are found, skip relationship extraction and return an
empty relation set; otherwise try relationship extraction but silently
replace a relationship-pass failure with an empty relation set.  `entFn`
and `relFn` are the two inference passes of the external GLiNER
collaborator. -/
def extract_with_relations
    (entFn : String → Except String (List ExtractedEntity))
    (relFn : String → List ExtractedEntity → Except String (List ExtractedRelation))
    (text : String) :
    Except String (List ExtractedEntity × List ExtractedRelation) :=
  match entFn text with
  | Except.error e => Except.error e
  | Except.ok entities =>
      if entities.isEmpty then
        Except.ok (entities, [])
      else
        match relFn text entities with
        | Except.ok rels => Except.ok (entities, rels)
        | Except.error _ => Except.ok (entities, [])

/-- Split a character list at each occurrence of the two-character
separator `"\n\n"` (accumulator holds the current piece reversed);
char-wise model of Rust's `content.split("\n\n")`. -/
def split_blank_aux (acc : List Char) : List Char → List (List Char)
  | [] => [acc.reverse]
  | '\n' :: '\n' :: rest => acc.reverse :: split_blank_aux [] rest
  | c :: rest => split_blank_aux (c :: acc) rest

/-- `content.split("\n\n")`: the blank-line-separated paragraphs of a
document. -/
def split_paragraphs (content : String) : List String :=
  (split_blank_aux [] content.data).map String.mk

/-- The capped extraction sample of `add_knowledge_source`
(`knowledge_base.rs`):
`content.split("\n\n").filter(|s| s.len() > 50).take(20)` — the first 20
blank-line-separated paragraphs of **more than** 50 characters. -/
def sampled_paragraphs (content : String) : List String :=
  ((split_paragraphs content).filter (fun s => s.length > 50)).take 20

/-- The extraction sample as the spec's sentence words it ("first N ≥
50-char paragraphs"): paragraphs of **at least** 50 characters.  Stated
only to compare against `sampled_paragraphs`, which is translated from the
code. -/
def sampled_paragraphs_atLeast50 (content : String) : List String :=
  ((split_paragraphs content).filter (fun s => s.length ≥ 50)).take 20

/-- Per-paragraph step of the entity/relationship enrichment loop of
`add_knowledge_source` (`knowledge_base.rs`): run `extract_with_relations`
on the sampled paragraph; a failure is logged and replaced by an empty
result (`Err(e) => println!(...)`; the two `process_*` calls are
`.ok()`ed), so the failure never propagates. -/
def enrichment_outcome
    (entFn : String → Except String (List ExtractedEntity))
    (relFn : String → List ExtractedEntity → Except String (List ExtractedRelation))
    (p : String) : List ExtractedEntity × List ExtractedRelation :=
  match extract_with_relations entFn relFn p with
  | Except.ok r => r
  | Except.error _ => ([], [])

/-- The enrichment loop itself: map the contained per-paragraph outcome
over the capped sample; the loop as a whole always succeeds. -/
def add_knowledge_source_enrichment
    (entFn : String → Except String (List ExtractedEntity))
    (relFn : String → List ExtractedEntity → Except String (List ExtractedRelation))
    (content : String) :
    Except String (List (List ExtractedEntity × List ExtractedRelation)) :=
  Except.ok ((sampled_paragraphs content).map (enrichment_outcome entFn relFn))

/-- Entity-name normalization for graph matching (lower-casing). -/
def normalize_name (s : String) : String := s.toLower

/-- Char-list substring test (`needle` occurs contiguously in the
haystack); models Rust's `str::contains`. -/
def chars_contains (needle : List Char) : List Char → Bool
  | [] => needle.isEmpty
  | b :: bs => needle.isPrefixOf (b :: bs) || chars_contains needle bs

/-- Does a meeting reference an extracted entity (entity text appears in
the title or in one of the meeting's segments)?  Modelled from the spec
(§4.4 3a; the Rust `graph_rag_query` body is absent from the snapshot). -/
def meeting_references (st : Store) (m : Meeting) (e : ExtractedEntity) : Bool :=
  chars_contains (normalize_name e.text).data (normalize_name m.title).data ||
    (get_meeting_segments m.id st).any
      (fun s => chars_contains (normalize_name e.text).data (normalize_name s.text).data)

/-- Is a meeting inside the optional temporal window `[start, end)`? -/
def meeting_in_window (window : Option (Int × Int)) (m : Meeting) : Bool :=
  match window with
  | none => true
  | some w => w.1 ≤ m.start_time && m.start_time < w.2

/-- Modelled from the spec (§4.4 3a): related meetings — meetings whose
title/segments reference an extracted entity, filtered by the temporal
window when present, newest-first, capped at 5. -/
def related_meetings (st : Store) (ents : List ExtractedEntity)
    (window : Option (Int × Int)) : List Meeting :=
  ((st.meetings.filter (fun m =>
      ents.any (fun e => meeting_references st m e) &&
        meeting_in_window window m)).insertionSort
    (fun a b => b.start_time ≤ a.start_time)).take 5

/-- Modelled from the spec (§4.4 3b): related people — Person nodes linked
via an EntityRelation row to an extracted entity or to a related
meeting. -/
def related_people (st : Store) (ents : List ExtractedEntity)
    (meetings : List Meeting) : List Person :=
  st.people.filter (fun p =>
    st.entity_relations.any (fun r =>
      (normalize_name r.source_entity == normalize_name p.name ||
        normalize_name r.target_entity == normalize_name p.name) &&
      (ents.any (fun e =>
          normalize_name r.source_entity == normalize_name e.text ||
            normalize_name r.target_entity == normalize_name e.text) ||
        meetings.any (fun m => r.meeting_id == some m.id))))

/-- Modelled from the spec (§4.4 3c): related topics — Topic nodes whose
normalized name equals a normalized extracted entity name. -/
def related_topics (st : Store) (ents : List ExtractedEntity) : List Topic :=
  st.topics.filter (fun t =>
    ents.any (fun e => normalize_name t.name == normalize_name e.text))

/-- Modelled from the spec (§4.4 4): open action items (status not
"done"/"completed"), scoped to the related meetings when any were found. -/
def open_action_items (st : Store) (meetings : List Meeting) : List ActionItem :=
  let opens := st.action_items.filter
    (fun a => ! (a.status == "done") && ! (a.status == "completed"))
  if meetings.isEmpty then opens
  else opens.filter (fun a => meetings.any (fun m => m.id == a.meeting_id))

/-- Modelled from the spec (§4.4 5): the most recent 5 decisions, scoped
to the related meetings if any were found, else global. -/
def recent_decisions (st : Store) (meetings : List Meeting) : List Decision :=
  let pool :=
    if meetings.isEmpty then st.decisions
    else st.decisions.filter (fun d => meetings.any (fun m => m.id == d.meeting_id))
  (pool.insertionSort (fun a b => b.created_at ≤ a.created_at)).take 5

/-- The context bundle the Graph-RAG engine assembles for the LLM. -/
structure GraphRagContext where
  temporal : Option (Int × Int)
  entities : List ExtractedEntity
  meetings : List Meeting
  people : List Person
  topics : List Topic
  action_items : List ActionItem
  decisions : List Decision
  vector_hits : List KnowledgeSearchResult
  deriving DecidableEq, Repr

/-- Modelled from the spec (§4.4): `graph_rag_query(question, k)` — extract
entities from the question (an extraction failure is contained, yielding
zero entities: zero entities is a valid success), parse the question for a
temporal window, compute each graph section best-effort over the store,
fetch the top-k vector hits independently, and assemble the bundle.  The
result is the Rust `Result` type; the engine never produces the error
case for "no data found". -/
def graph_rag_query
    (entFn : String → Except String (List ExtractedEntity))
    (score : KnowledgeChunk → Int)
    (question : String) (now : Int) (k : Nat) (st : Store) :
    Except String GraphRagContext :=
  let ents :=
    match entFn question with
    | Except.ok es => es
    | Except.error _ => []
  let window := parse_temporal question now
  let meetings := related_meetings st ents window
  Except.ok
    { temporal := window
      entities := ents
      meetings := meetings
      people := related_people st ents meetings
      topics := related_topics st ents
      action_items := open_action_items st meetings
      decisions := recent_decisions st meetings
      vector_hits := search_knowledge score (kb_resolver st.kb) st.kb k none }

/-! ## Helper lemmas -/

theorem normalize_source_id_append (s : String) :
    normalize_source_id (ksTag ++ s) = s := by
  have hpre : ksTag.data.isPrefixOf (ksTag ++ s).data = true := by
    rw [String.data_append]
    exact List.isPrefixOf_iff_prefix.mpr (List.prefix_append _ _)
  simp only [normalize_source_id, hpre, if_true]
  rw [String.data_append, List.drop_left]

theorem normalize_source_id_of_not_tagged (s : String)
    (h : ksTag.data.isPrefixOf s.data = false) :
    normalize_source_id s = s := by
  simp [normalize_source_id, h]

theorem get_knowledge_source_sources_eq (sid : String) (st₁ st₂ : KBStore)
    (h : st₁.sources = st₂.sources) :
    get_knowledge_source sid st₁ = get_knowledge_source sid st₂ := by
  unfold get_knowledge_source
  rw [h]

theorem filter_not_then_filter (p : α → Bool) (l : List α) :
    (l.filter (fun a => ! p a)).filter p = [] := by
  rw [List.filter_filter]
  have h : ∀ a : α, (p a && ! p a) = false := by
    intro a
    cases hp : p a <;> simp [hp]
  simp only [h, List.filter_false]

theorem find?_filter_not (p : α → Bool) (l : List α) :
    (l.filter (fun a => ! p a)).find? p = none := by
  rw [List.find?_eq_none]
  intro a ha
  have := List.of_mem_filter ha
  simpa using this

/-! ## C10 — bare vs fully-qualified source-id lookup -/

/-- C10 (corrected): for every source id `s` that does not itself start
with the `"knowledge_source:"` tag, `get_knowledge_source` returns the
same result for the bare id `s` and for the fully-qualified spelling
`"knowledge_source:" ++ s` — the tag is stripped once before lookup, so
both spellings resolve to the same source (or to none together). -/
theorem get_knowledge_source_qualified_eq (s : String) (st : KBStore)
    (h : ksTag.data.isPrefixOf s.data = false) :
    get_knowledge_source (ksTag ++ s) st = get_knowledge_source s st := by
  unfold get_knowledge_source
  rw [normalize_source_id_append, normalize_source_id_of_not_tagged s h]

/-- Witness for C10's theorem at `s = "abc"` over a one-source store. -/
theorem get_knowledge_source_qualified_eq_witness :
    (ksTag.data.isPrefixOf "abc".data = false) ∧
    get_knowledge_source (ksTag ++ "abc")
        { sources := [⟨"abc", "u", "T", "web", []⟩], chunks := [] } =
      get_knowledge_source "abc"
        { sources := [⟨"abc", "u", "T", "web", []⟩], chunks := [] } :=
  ⟨by decide,
    get_knowledge_source_qualified_eq "abc"
      { sources := [⟨"abc", "u", "T", "web", []⟩], chunks := [] } (by decide)⟩

/-- C10 (counterexample to the claim as stated): the claim quantifies over
*every* source id string `s`; for `s = "knowledge_source:abc"` (chunks do
store such fully-qualified ids) the bare call strips the tag and finds the
source `"abc"`, while the doubly-qualified call strips only one tag and
looks up `"knowledge_source:abc"`, finding nothing. -/
theorem get_knowledge_source_qualified_counterexample :
    ¬ (get_knowledge_source "knowledge_source:abc"
          { sources := [⟨"abc", "u", "T", "web", []⟩], chunks := [] } =
        get_knowledge_source (ksTag ++ "knowledge_source:abc")
          { sources := [⟨"abc", "u", "T", "web", []⟩], chunks := [] }) := by
  decide

/-! ## Cleanup characterization (C3, C4) -/

theorem contains_of_mem {l : List String} {a : String} (h : a ∈ l) :
    l.contains a = true := by
  simpa [List.contains] using List.elem_iff.mpr h

theorem foldl_cleanup_step (sids : List String) :
    ∀ (st : KBStore) (k : Nat),
      ((sids.foldl cleanup_step (st, k)).1.sources = st.sources) ∧
      ((sids.foldl cleanup_step (st, k)).1.chunks =
        st.chunks.filter (fun c =>
          ! (sids.contains c.source_id &&
              (get_knowledge_source c.source_id st).isNone))) ∧
      ((sids.foldl cleanup_step (st, k)).2 =
        k + (sids.filter
          (fun sid => (get_knowledge_source sid st).isNone)).length) := by
  induction sids with
  | nil =>
      intro st k
      refine ⟨rfl, ?_, rfl⟩
      simp
  | cons sid rest ih =>
      intro st k
      by_cases h : (get_knowledge_source sid st).isNone = true
      · have hstep : cleanup_step (st, k) sid =
            ({ st with chunks := st.chunks.filter (fun c => ! (c.source_id == sid)) },
              k + 1) := by
          simp [cleanup_step, h]
        set st₁ : KBStore :=
          { st with chunks := st.chunks.filter (fun c => ! (c.source_id == sid)) }
          with hst₁
        have hsrc : ∀ x, get_knowledge_source x st₁ = get_knowledge_source x st :=
          fun x => get_knowledge_source_sources_eq x st₁ st rfl
        have ih₁ := ih st₁ (k + 1)
        rw [List.foldl_cons, hstep]
        refine ⟨ih₁.1, ?_, ?_⟩
        · rw [ih₁.2.1]
          simp only [hsrc, hst₁]
          rw [List.filter_filter]
          have hfun : (fun c : KnowledgeChunk =>
              (! (rest.contains c.source_id &&
                  (get_knowledge_source c.source_id st).isNone)) &&
                ! (c.source_id == sid)) =
              (fun c : KnowledgeChunk =>
                ! ((sid :: rest).contains c.source_id &&
                    (get_knowledge_source c.source_id st).isNone)) := by
            funext c
            cases hcs : c.source_id == sid with
            | true =>
                have : c.source_id = sid := eq_of_beq hcs
                simp [this, h]
            | false =>
                have hne : c.source_id ≠ sid := by simpa using hcs
                simp [List.contains_cons, hcs, hne]
          rw [hfun]
        · rw [ih₁.2.2]
          simp only [hsrc]
          have : (sid :: rest).filter
              (fun s => (get_knowledge_source s st).isNone) =
              sid :: rest.filter (fun s => (get_knowledge_source s st).isNone) := by
            simp [List.filter_cons, h]
          rw [this]
          simp
          omega
      · have hb : (get_knowledge_source sid st).isNone = false :=
          Bool.eq_false_iff.mpr h
        have hstep : cleanup_step (st, k) sid = (st, k) := by
          simp [cleanup_step, hb]
        have ih₁ := ih st k
        rw [List.foldl_cons, hstep]
        refine ⟨ih₁.1, ?_, ?_⟩
        · rw [ih₁.2.1]
          have hfun : (fun c : KnowledgeChunk =>
              ! (rest.contains c.source_id &&
                  (get_knowledge_source c.source_id st).isNone)) =
              (fun c : KnowledgeChunk =>
                ! ((sid :: rest).contains c.source_id &&
                    (get_knowledge_source c.source_id st).isNone)) := by
            funext c
            cases hcs : c.source_id == sid with
            | true =>
                have : c.source_id = sid := eq_of_beq hcs
                simp [this, hb, List.contains_cons]
            | false =>
                have hne : c.source_id ≠ sid := by simpa using hcs
                simp [List.contains_cons, hcs, hne]
          rw [hfun]
        · rw [ih₁.2.2]
          have : (sid :: rest).filter
              (fun s => (get_knowledge_source s st).isNone) =
              rest.filter (fun s => (get_knowledge_source s st).isNone) := by
            simp [List.filter_cons, hb]
          rw [this]

theorem cleanup_orphaned_chunks_characterization (st : KBStore) :
    (cleanup_orphaned_chunks st).1.sources = st.sources ∧
    (cleanup_orphaned_chunks st).1.chunks =
      st.chunks.filter
        (fun c => (get_knowledge_source c.source_id st).isSome) ∧
    (cleanup_orphaned_chunks st).2 =
      (((st.chunks.map (·.source_id)).dedup).filter
        (fun sid => (get_knowledge_source sid st).isNone)).length := by
  have hfold := foldl_cleanup_step ((st.chunks.map (·.source_id)).dedup) st 0
  unfold cleanup_orphaned_chunks
  refine ⟨hfold.1, ?_, by simpa using hfold.2.2⟩
  rw [hfold.2.1]
  apply List.filter_congr
  intro c hc
  have hmem : c.source_id ∈ (st.chunks.map (·.source_id)).dedup :=
    List.mem_dedup.mpr (List.mem_map_of_mem _ hc)
  rw [contains_of_mem hmem]
  cases hn : (get_knowledge_source c.source_id st) <;> simp

/-- C3 (counterexample to the claim as stated): the claim says the integer
returned equals the number of chunks deleted.  On a store with no sources
and two chunks of the same orphaned `source_id`, the run deletes 2 chunks
but returns 1 (the counter is bumped once per orphaned source id, not per
chunk). -/
theorem cleanup_orphaned_chunks_count_counterexample :
    ¬ ((cleanup_orphaned_chunks
          { sources := [], chunks := [⟨"s1", "a", 0⟩, ⟨"s1", "b", 1⟩] }).2 =
        ({ sources := [], chunks := [⟨"s1", "a", 0⟩, ⟨"s1", "b", 1⟩] } :
            KBStore).chunks.length -
          (cleanup_orphaned_chunks
            { sources := [], chunks := [⟨"s1", "a", 0⟩, ⟨"s1", "b", 1⟩] }).1.chunks.length) := by
  decide

/-- C3 (amended): for every store state, `cleanup_orphaned_chunks` deletes
exactly those chunks whose `source_id` — normalized through
`get_knowledge_source`, which strips a fully-qualified
`"knowledge_source:"` tag — refers to no existing source, leaves the
source table unchanged, and returns the number of **distinct orphaned
source-id values** (source groups), not the number of chunks deleted. -/
theorem cleanup_orphaned_chunks_correct (st : KBStore) :
    (cleanup_orphaned_chunks st).1.chunks =
      st.chunks.filter
        (fun c => (get_knowledge_source c.source_id st).isSome) ∧
    (cleanup_orphaned_chunks st).1.sources = st.sources ∧
    (cleanup_orphaned_chunks st).2 =
      (((st.chunks.map (·.source_id)).dedup).filter
        (fun sid => (get_knowledge_source sid st).isNone)).length :=
  ⟨(cleanup_orphaned_chunks_characterization st).2.1,
    (cleanup_orphaned_chunks_characterization st).1,
    (cleanup_orphaned_chunks_characterization st).2.2⟩

/-- C4: `cleanup_orphaned_chunks` is idempotent — after one run, a second
consecutive run deletes zero source groups and leaves the chunk table
exactly as the first run left it. -/
theorem cleanup_orphaned_chunks_idempotent (st : KBStore) :
    (cleanup_orphaned_chunks (cleanup_orphaned_chunks st).1).2 = 0 ∧
    (cleanup_orphaned_chunks (cleanup_orphaned_chunks st).1).1.chunks =
      (cleanup_orphaned_chunks st).1.chunks := by
  obtain ⟨hsrc, hchunks, -⟩ := cleanup_orphaned_chunks_characterization st
  obtain ⟨-, hchunks', hcount'⟩ :=
    cleanup_orphaned_chunks_characterization (cleanup_orphaned_chunks st).1
  have hkeep : ∀ c ∈ (cleanup_orphaned_chunks st).1.chunks,
      (get_knowledge_source c.source_id (cleanup_orphaned_chunks st).1).isSome = true := by
    intro c hc
    rw [hchunks] at hc
    have hmem := List.of_mem_filter hc
    rw [get_knowledge_source_sources_eq c.source_id (cleanup_orphaned_chunks st).1 st hsrc]
    exact hmem
  constructor
  · rw [hcount']
    have hnone : ∀ sid ∈ ((cleanup_orphaned_chunks st).1.chunks.map (·.source_id)).dedup,
        ¬ ((get_knowledge_source sid (cleanup_orphaned_chunks st).1).isNone = true) := by
      intro sid hsid
      obtain ⟨c, hc, hcs⟩ := List.mem_map.mp (List.mem_dedup.mp hsid)
      have hsome := hkeep c hc
      rw [hcs] at hsome
      cases hx : get_knowledge_source sid (cleanup_orphaned_chunks st).1 <;>
        simp_all
    rw [List.filter_eq_nil_iff.mpr hnone]
    rfl
  · rw [hchunks']
    exact List.filter_eq_self.mpr hkeep

/-! ## C2 — search_knowledge result cap and per-hit fallback -/

/-- C2: `search_knowledge` returns at most `limit` results; the result
count does not depend on the source-resolution outcomes (two runs with
arbitrary resolvers over the same chunks agree on the count, so a per-hit
resolution failure drops nothing); and any hit whose source resolution
fails — missing source (`Ok(None)`) or lookup error (`Err(_)`) — keeps its
place with the fallback title `"Source {id}"`. -/
theorem search_knowledge_limit_and_fallback
    (score : KnowledgeChunk → Int) (st : KBStore) (limit : Nat)
    (resolve resolve' : String → Except String (Option KnowledgeSource)) :
    (search_knowledge score resolve st limit none).length ≤ limit ∧
    (search_knowledge score resolve st limit none).length =
      (search_knowledge score resolve' st limit none).length ∧
    ∀ r ∈ search_knowledge score resolve st limit none,
      (resolve r.chunk.source_id = Except.ok none ∨
          (∃ e, resolve r.chunk.source_id = Except.error e)) →
        r.source_title = "Source " ++ r.chunk.source_id := by
  refine ⟨?_, ?_, ?_⟩
  · simp only [search_knowledge, List.length_map, List.length_take]
    omega
  · simp only [search_knowledge, List.length_map]
  · intro r hr hfail
    simp only [search_knowledge, List.mem_map] at hr
    obtain ⟨c, hc, rfl⟩ := hr
    rcases hfail with h | ⟨e, h⟩ <;>
      simp [resolve_source_meta, h]

/-- Witness for C2's theorem: a one-chunk store with a resolver that finds
no source; the single hit is kept with the fallback title `"Source s1"`. -/
theorem search_knowledge_limit_and_fallback_witness :
    (search_knowledge (fun _ => (0 : Int)) (fun _ => Except.ok none)
        { sources := [], chunks := [⟨"s1", "txt", 0⟩] } 1 none).length ≤ 1 ∧
    ({ chunk := ⟨"s1", "txt", 0⟩, source_title := "Source s1",
        source_url := "", similarity := 0 } :
          KnowledgeSearchResult).source_title = "Source " ++ "s1" :=
  ⟨(search_knowledge_limit_and_fallback (fun _ => (0 : Int))
      { sources := [], chunks := [⟨"s1", "txt", 0⟩] } 1
      (fun _ => Except.ok none) (fun _ => Except.ok none)).1,
    (search_knowledge_limit_and_fallback (fun _ => (0 : Int))
        { sources := [], chunks := [⟨"s1", "txt", 0⟩] } 1
        (fun _ => Except.ok none) (fun _ => Except.ok none)).2.2
      _ (by decide) (Or.inl rfl)⟩

/-! ## C5, C6 — temporal parser rules and purity -/

/-- C5: the Temporal Parser applies its rules in priority order, first
match wins — a text whose words are `"<n> weeks ago"` yields the window
centered at `now − 7n` days with half-width 3.5 days; `"<n> days ago"`
yields the window centered at `now − n` days with half-width 12 hours;
`"last week"` yields `[now−14d, now−7d)`; `"last month"` yields
`[now−30d, now)`; `"yesterday"` yields `[now−2d, now−1d)`; and a text
matching none of the rules yields no window. -/
theorem parse_temporal_rules (now : Int) :
    (∀ text numStr n,
        words_of text = [numStr, "weeks", "ago"] →
        word_to_nat? numStr = some n →
        parse_temporal text now =
          some (now - 7 * n * dayMs - halfWeekMs,
            now - 7 * n * dayMs + halfWeekMs)) ∧
    (∀ text numStr n,
        words_of text = [numStr, "days", "ago"] →
        word_to_nat? numStr = some n →
        parse_temporal text now =
          some (now - n * dayMs - halfDayMs, now - n * dayMs + halfDayMs)) ∧
    parse_temporal "last week" now = some (now - 14 * dayMs, now - 7 * dayMs) ∧
    parse_temporal "last month" now = some (now - 30 * dayMs, now) ∧
    parse_temporal "yesterday" now = some (now - 2 * dayMs, now - 1 * dayMs) ∧
    (∀ text,
        scan_n_unit "weeks" (words_of text) = none →
        scan_n_unit "days" (words_of text) = none →
        has_seq2 "last" "week" (words_of text) = false →
        has_seq2 "last" "month" (words_of text) = false →
        (words_of text).contains "yesterday" = false →
        parse_temporal text now = none) := by
  refine ⟨?_, ?_, rfl, rfl, rfl, ?_⟩
  · intro text numStr n hwords hnum
    simp [parse_temporal, hwords, scan_n_unit, hnum]
  · intro text numStr n hwords hnum
    simp [parse_temporal, hwords, scan_n_unit, hnum]
  · intro text h1 h2 h3 h4 h5
    have h5' : "yesterday" ∉ words_of text := by simpa using h5
    simp [parse_temporal, h1, h2, h3, h4, h5']

/-- Witness for C5's theorem: `"3 weeks ago"` at `now = 1000` yields the
window centered 21 days back with half-width 3.5 days, and the phrase-free
text `"hello"` yields no window. -/
theorem parse_temporal_rules_witness :
    parse_temporal "3 weeks ago" 1000 =
      some (1000 - 7 * 3 * dayMs - halfWeekMs,
        1000 - 7 * 3 * dayMs + halfWeekMs) ∧
    parse_temporal "hello" 1000 = none :=
  ⟨(parse_temporal_rules 1000).1 "3 weeks ago" "3" 3 rfl rfl,
    (parse_temporal_rules 1000).2.2.2.2.2 "hello" rfl rfl rfl rfl rfl⟩

/-- C6: the Temporal Parser is a pure, deterministic function of its two
arguments — any two runs of `parse_temporal` on the identical
`(text, now)` input return the identical window. -/
theorem parse_temporal_deterministic (text : String) (now : Int)
    (w₁ w₂ : Option (Int × Int))
    (h₁ : parse_temporal text now = w₁) (h₂ : parse_temporal text now = w₂) :
    w₁ = w₂ :=
  h₁ ▸ h₂

/-- Witness for C6's theorem at `("yesterday", 0)`. -/
theorem parse_temporal_deterministic_witness :
    (some (0 - 2 * dayMs, 0 - 1 * dayMs) : Option (Int × Int)) =
      some (0 - 2 * dayMs, 0 - 1 * dayMs) :=
  parse_temporal_deterministic "yesterday" 0 _ _ rfl rfl

/-! ## C7 — diarization relabelling -/

/-- C7: `relabel_speakers` rewrites exactly the generically-labeled
segments of the given meeting whose midpoint falls in a diarization range
(a non-generic segment is untouched; a matched generic segment gets the
first matching range's resolved label; a generic segment whose midpoint
falls in no range is left unchanged; segments of other meetings are kept
as they are); a midpoint exactly on the boundary between two adjacent
ranges resolves to the earlier range; and the spec's concrete scenario —
generic segments with midpoints 5 s / 15 s / 25 s under ranges
`[0,10) → "Speaker 1"`, `[10,20) → "Speaker 2"`, `[20,30) → "Speaker 3"` —
yields exactly those three labels. -/
theorem relabel_speakers_correct :
    (∀ (ranges : List DiarizationRange) (s : Segment),
        ¬ s.speaker = generic_speaker → relabel_segment ranges s = s) ∧
    (∀ (ranges : List DiarizationRange) (s : Segment) (r : DiarizationRange),
        s.speaker = generic_speaker →
        find_diarization_range ranges (segment_midpoint s) = some r →
        relabel_segment ranges s = { s with speaker := r.label }) ∧
    (∀ (ranges : List DiarizationRange) (s : Segment),
        s.speaker = generic_speaker →
        find_diarization_range ranges (segment_midpoint s) = none →
        relabel_segment ranges s = s) ∧
    (∀ (mid : String) (ranges : List DiarizationRange) (st : Store) (s : Segment),
        s ∈ st.segments → ¬ s.meeting_id = mid →
        s ∈ (relabel_speakers mid ranges st).1.segments) ∧
    ((relabel_speakers "m1"
        [⟨0, 10000, 0, "Speaker 1"⟩, ⟨10000, 20000, 1, "Speaker 2"⟩,
          ⟨20000, 30000, 2, "Speaker 3"⟩]
        { meetings := [], segments :=
            [⟨"m1", "Guest", "a", 0, 10000⟩, ⟨"m1", "Guest", "b", 10000, 20000⟩,
              ⟨"m1", "Guest", "c", 20000, 30000⟩],
          action_items := [], decisions := [], people := [], topics := [],
          entity_relations := [], graph_edges := [], meeting_knowledge := [],
          kb := ⟨[], []⟩ }).1.segments.map (fun s => s.speaker) =
      ["Speaker 1", "Speaker 2", "Speaker 3"]) ∧
    relabel_segment
        [⟨0, 10000, 0, "Speaker 1"⟩, ⟨10000, 20000, 1, "Speaker 2"⟩,
          ⟨20000, 30000, 2, "Speaker 3"⟩]
        ⟨"m1", "Guest", "t", 0, 20000⟩ =
      ⟨"m1", "Speaker 1", "t", 0, 20000⟩ := by
  refine ⟨?_, ?_, ?_, ?_, by decide, by decide⟩
  · intro ranges s h
    simp [relabel_segment, h]
  · intro ranges s r h hfind
    simp [relabel_segment, h, hfind]
  · intro ranges s h hfind
    simp [relabel_segment, h, hfind]
  · intro mid ranges st s hs hne
    simp only [relabel_speakers]
    have hstep :
        (if s.meeting_id == mid then relabel_segment ranges s else s) = s := by
      simp [hne]
    have hmem := List.mem_map_of_mem
      (fun s : Segment => if s.meeting_id == mid then relabel_segment ranges s else s) hs
    simpa only [hstep] using hmem

/-- Witness for C7's theorem: a non-generically-labeled segment is left
unchanged by relabelling. -/
theorem relabel_speakers_correct_witness :
    relabel_segment [] ⟨"m1", "Alice", "t", 0, 1000⟩ =
      ⟨"m1", "Alice", "t", 0, 1000⟩ :=
  relabel_speakers_correct.1 [] ⟨"m1", "Alice", "t", 0, 1000⟩ (by decide)

/-! ## C8 — delete_meeting cascades -/

/-- C8: whenever `delete_meeting` succeeds, the deletion has cascaded over
segments, action items, decisions, entity relations (by meeting id), graph
edges and meeting-knowledge links as well as the meeting row: afterwards
`get_meeting` is `none` and every per-meeting child accessor returns an
empty sequence. -/
theorem delete_meeting_cascades (mid : String) (st st' : Store)
    (h : delete_meeting mid st = Except.ok st') :
    get_meeting mid st' = none ∧
    get_meeting_segments mid st' = [] ∧
    get_meeting_action_items mid st' = [] ∧
    get_meeting_decisions mid st' = [] ∧
    st'.entity_relations.filter (fun r => r.meeting_id == some mid) = [] ∧
    st'.graph_edges.filter (fun e => e.meeting_id == mid) = [] ∧
    st'.meeting_knowledge.filter (fun l => l.meeting_id == mid) = [] := by
  unfold delete_meeting at h
  split at h
  · exact absurd h (by simp)
  · rw [Except.ok.injEq] at h
    subst h
    refine ⟨?_, ?_, ?_, ?_, ?_, ?_, ?_⟩
    · exact find?_filter_not (fun m => m.id == mid) st.meetings
    · exact filter_not_then_filter (fun s => s.meeting_id == mid) st.segments
    · exact filter_not_then_filter (fun a => a.meeting_id == mid) st.action_items
    · exact filter_not_then_filter (fun d => d.meeting_id == mid) st.decisions
    · exact filter_not_then_filter
        (fun r => r.meeting_id == some mid) st.entity_relations
    · exact filter_not_then_filter (fun e => e.meeting_id == mid) st.graph_edges
    · exact filter_not_then_filter
        (fun l => l.meeting_id == mid) st.meeting_knowledge

/-- Witness for C8's theorem: deleting the only meeting of a small store
succeeds and afterwards the meeting is gone. -/
theorem delete_meeting_cascades_witness :
    delete_meeting "m1"
        { meetings := [⟨"m1", "T", 0⟩],
          segments := [⟨"m1", "Guest", "hi", 0, 1000⟩],
          action_items := [⟨"m1", "do", "open", "A"⟩],
          decisions := [⟨"m1", "d", 0⟩], people := [], topics := [],
          entity_relations :=
            [⟨"a", "person", "discussed", "b", "topic", some "m1", none⟩],
          graph_edges := [⟨"mentioned_in", "m1"⟩],
          meeting_knowledge := [⟨"m1", "s1"⟩], kb := ⟨[], []⟩ } =
      Except.ok
        { meetings := [], segments := [], action_items := [], decisions := [],
          people := [], topics := [], entity_relations := [], graph_edges := [],
          meeting_knowledge := [], kb := ⟨[], []⟩ } ∧
    get_meeting "m1"
        { meetings := [], segments := [], action_items := [], decisions := [],
          people := [], topics := [], entity_relations := [], graph_edges := [],
          meeting_knowledge := [], kb := ⟨[], []⟩ } = none :=
  ⟨by rfl,
    (delete_meeting_cascades "m1"
      { meetings := [⟨"m1", "T", 0⟩],
        segments := [⟨"m1", "Guest", "hi", 0, 1000⟩],
        action_items := [⟨"m1", "do", "open", "A"⟩],
        decisions := [⟨"m1", "d", 0⟩], people := [], topics := [],
        entity_relations :=
          [⟨"a", "person", "discussed", "b", "topic", some "m1", none⟩],
        graph_edges := [⟨"mentioned_in", "m1"⟩],
        meeting_knowledge := [⟨"m1", "s1"⟩], kb := ⟨[], []⟩ }
      { meetings := [], segments := [], action_items := [], decisions := [],
        people := [], topics := [], entity_relations := [], graph_edges := [],
        meeting_knowledge := [], kb := ⟨[], []⟩ }
      (by rfl)).1⟩

/-! ## C9 — capped extraction sample and failure containment -/

/-- C9 (counterexample to the claim as stated): the claim says the sample
consists of the paragraphs of *at least* 50 characters, but the code
filters with `s.len() > 50`; on a document that is one 50-character
paragraph the code samples nothing while the claim's reading samples the
paragraph. -/
theorem sampled_paragraphs_atLeast50_counterexample :
    ¬ (sampled_paragraphs
          "aaaaaaaaaaaaaaaaaaaaaaaaaaaaaaaaaaaaaaaaaaaaaaaaaa" =
        sampled_paragraphs_atLeast50
          "aaaaaaaaaaaaaaaaaaaaaaaaaaaaaaaaaaaaaaaaaaaaaaaaaa") := by
  decide

/-- C9 (amended): entity/relationship extraction in
`add_knowledge_source` runs only over a capped sample — at most the first
20 blank-line-separated paragraphs of **more than** 50 characters, never
the full document — and per-paragraph failures are contained: the
enrichment loop always succeeds, an entity-pass failure yields the empty
outcome for that paragraph, and a relationship-pass failure keeps the
entities with an empty relation set. -/
theorem add_knowledge_source_extraction_contained
    (entFn : String → Except String (List ExtractedEntity))
    (relFn : String → List ExtractedEntity → Except String (List ExtractedRelation))
    (content : String) :
    (sampled_paragraphs content).length ≤ 20 ∧
    (∀ p ∈ sampled_paragraphs content,
        p.length > 50 ∧ p ∈ split_paragraphs content) ∧
    (add_knowledge_source_enrichment entFn relFn content).isOk = true ∧
    (∀ p e, entFn p = Except.error e →
        enrichment_outcome entFn relFn p = ([], [])) ∧
    (∀ p es e, entFn p = Except.ok es → relFn p es = Except.error e →
        enrichment_outcome entFn relFn p = (es, [])) := by
  refine ⟨?_, ?_, rfl, ?_, ?_⟩
  · simp only [sampled_paragraphs, List.length_take]
    omega
  · intro p hp
    have hp' := List.mem_of_mem_take hp
    have := List.mem_filter.mp hp'
    exact ⟨by simpa using this.2, this.1⟩
  · intro p e h
    simp [enrichment_outcome, extract_with_relations, h]
  · intro p es e he hr
    simp only [enrichment_outcome, extract_with_relations, he]
    cases hes : es.isEmpty <;> simp [hes, hr]

/-- Witness for C9's theorem: with an always-failing entity pass, the
outcome for a paragraph is the empty entity and relation sets. -/
theorem add_knowledge_source_extraction_contained_witness :
    enrichment_outcome (fun _ => Except.error "no model")
        (fun _ _ => Except.ok []) "some paragraph" = ([], []) :=
  (add_knowledge_source_extraction_contained
      (fun _ => Except.error "no model") (fun _ _ => Except.ok []) "").2.2.2.1
    "some paragraph" "no model" rfl

/-! ## C1 — the Graph-RAG engine never errors for "no data found" -/

theorem related_meetings_nil_entities (st : Store) (w : Option (Int × Int)) :
    related_meetings st [] w = [] := by
  simp [related_meetings]

theorem related_people_nil (st : Store) :
    related_people st [] [] = [] := by
  simp [related_people]

theorem related_topics_nil (st : Store) :
    related_topics st [] = [] := by
  simp [related_topics]

/-- C1: the Graph-RAG query engine never produces an error — for every
question, extractor behaviour and store it returns a successful context
bundle whose vector-search section is exactly the top-k vector search
(independent of the graph sections); and when no entities are extracted
(zero entities or a contained extraction failure) and no temporal phrase
parses, the graph sections of the returned bundle are all empty while the
vector-search section is still that same, possibly non-empty, vector
search result. -/
theorem graph_rag_query_never_errors
    (entFn : String → Except String (List ExtractedEntity))
    (score : KnowledgeChunk → Int) (q : String) (now : Int) (k : Nat)
    (st : Store) :
    (graph_rag_query entFn score q now k st).isOk = true ∧
    (∀ ctx, graph_rag_query entFn score q now k st = Except.ok ctx →
        ctx.vector_hits =
          search_knowledge score (kb_resolver st.kb) st.kb k none) ∧
    ((entFn q = Except.ok [] ∨ (∃ e, entFn q = Except.error e)) →
      parse_temporal q now = none →
      ∀ ctx, graph_rag_query entFn score q now k st = Except.ok ctx →
        ctx.temporal = none ∧ ctx.meetings = [] ∧ ctx.people = [] ∧
          ctx.topics = []) := by
  refine ⟨rfl, ?_, ?_⟩
  · intro ctx h
    simp only [graph_rag_query, Except.ok.injEq] at h
    subst h
    rfl
  · intro hent htemp ctx h
    have hnil : (match entFn q with
        | Except.ok es => es
        | Except.error _ => []) = ([] : List ExtractedEntity) := by
      rcases hent with hok | ⟨e, herr⟩
      · rw [hok]
      · rw [herr]
    simp only [graph_rag_query, hnil, Except.ok.injEq] at h
    subst h
    refine ⟨htemp, ?_, ?_, ?_⟩
    · exact related_meetings_nil_entities st _
    · rw [related_meetings_nil_entities st _]
      exact related_people_nil st
    · exact related_topics_nil st

/-- Witness for C1's theorem: an extractor returning zero entities on the
entity-free question `"hello"` over a store whose knowledge base holds one
chunk — the bundle is returned successfully with empty graph sections and
a non-empty vector-search section. -/
theorem graph_rag_query_never_errors_witness :
    ({ temporal := none, entities := [], meetings := [], people := [],
        topics := [], action_items := [], decisions := [],
        vector_hits := [⟨⟨"s1", "hello world", 0⟩, "Source s1", "", 0⟩] } :
          GraphRagContext).temporal = none ∧
    ({ temporal := none, entities := [], meetings := [], people := [],
        topics := [], action_items := [], decisions := [],
        vector_hits := [⟨⟨"s1", "hello world", 0⟩, "Source s1", "", 0⟩] } :
          GraphRagContext).meetings = [] ∧
    ({ temporal := none, entities := [], meetings := [], people := [],
        topics := [], action_items := [], decisions := [],
        vector_hits := [⟨⟨"s1", "hello world", 0⟩, "Source s1", "", 0⟩] } :
          GraphRagContext).people = [] ∧
    ({ temporal := none, entities := [], meetings := [], people := [],
        topics := [], action_items := [], decisions := [],
        vector_hits := [⟨⟨"s1", "hello world", 0⟩, "Source s1", "", 0⟩] } :
          GraphRagContext).topics = [] :=
  (graph_rag_query_never_errors (fun _ => Except.ok []) (fun _ => 0)
      "hello" 0 1
      { meetings := [], segments := [], action_items := [], decisions := [],
        people := [], topics := [], entity_relations := [], graph_edges := [],
        meeting_knowledge := [],
        kb := ⟨[], [⟨"s1", "hello world", 0⟩]⟩ }).2.2
    (Or.inl rfl) rfl
    { temporal := none, entities := [], meetings := [], people := [],
      topics := [], action_items := [], decisions := [],
      vector_hits := [⟨⟨"s1", "hello world", 0⟩, "Source s1", "", 0⟩] }
    (by rfl)

end SecondBrain
